import Mathlib

/-!
# Verification of the miden-base admission/response layer and kernel glue

Shallow embedding of:
* `bin/proving-service/src/utils.rs` — the four response builders
  (`create_queue_full_response`, `create_too_many_requests_response`,
  `create_workers_updated_response`, `create_response_with_error_message`)
  and `create_health_check_client`;
* `crates/miden-lib/src/transaction/mod.rs` — `TransactionKernel::build_output_stack`
  and `TransactionKernel::parse_output_stack`;
* `objects/src/block/mod.rs` — `Block::new`, `Block::validate`, `Block::read_from`.

The pingora `Session` is modelled as an explicit record of the keep-alive
setting and the sequence of response headers written; the process-wide
`QUEUE_DROP_COUNT` metric is an explicit counter threaded through the state.
Network behaviour (URI parsing, connection establishment) is modelled by a
boolean oracle, since the claims only concern which classification each
outcome receives.
-/

-- ==============================================================
-- Response/Status Mapper (bin/proving-service/src/utils.rs)
-- ==============================================================

/-- `pingora::http::ResponseHeader`: a status code plus a header map.
`insert_header` replaces any previous value for the same name. -/
structure ResponseHeader where
  status : Nat
  headers : List (String × String)
deriving DecidableEq, Repr

/-- `ResponseHeader::build(status, None)`: fresh header with the given status.
(The Rust builder is fallible but never fails on the literal status codes
used by the response builders, so it is modelled as total.) -/
def ResponseHeader.build (status : Nat) : ResponseHeader :=
  { status := status, headers := [] }

/-- `ResponseHeader::insert_header(name, value)`: insert, replacing any
existing value of the same name. -/
def ResponseHeader.insert_header (h : ResponseHeader) (name value : String) :
    ResponseHeader :=
  { h with headers := h.headers.filter (fun p => p.1 != name) ++ [(name, value)] }

/-- Look up the value of a header by name. -/
def ResponseHeader.get (h : ResponseHeader) (name : String) : Option String :=
  (h.headers.find? (fun p => p.1 == name)).map (fun p => p.2)

/-- `pingora_proxy::Session`, restricted to the parts the response builders
touch: the keep-alive setting and the log of response headers written
(each paired with its `end_of_stream` flag). -/
structure Session where
  keepalive : Option Nat
  written : List (ResponseHeader × Bool)
deriving DecidableEq, Repr

/-- `Session::set_keepalive`. -/
def Session.set_keepalive (s : Session) (k : Option Nat) : Session :=
  { s with keepalive := k }

/-- `Session::write_response_header(header, end_of_stream)`: appends the
header to the response stream. I/O failures are outside the model (the
claims speak only about executions that complete without an I/O failure). -/
def Session.write_response_header (s : Session) (h : ResponseHeader)
    (end_of_stream : Bool) : Session :=
  { s with written := s.written ++ [(h, end_of_stream)] }

/-- `pingora::ErrorType`, restricted to the variant used here. -/
inductive PingoraErrorType where
  | HTTPStatus (code : Nat)
deriving DecidableEq, Repr

/-- `pingora::Error` as built by `Error::new(..).more_context(..).into_in()`
followed by `set_cause`: error type, context, cause, and whether the error
was marked internal (`into_in`). -/
structure PingoraError where
  etype : PingoraErrorType
  context : Option String
  cause : Option String
  internal : Bool
deriving DecidableEq, Repr

/-- The process state visible to the response builders: the session being
answered plus the process-wide `QUEUE_DROP_COUNT` metric
(`crate::proxy::metrics::QUEUE_DROP_COUNT`, a monotone counter). -/
structure ServerState where
  session : Session
  queue_drop_count : Nat
deriving DecidableEq, Repr

/-- `RESOURCE_EXHAUSTED_CODE: u16 = 8` (utils.rs line 23). -/
def RESOURCE_EXHAUSTED_CODE : Nat := 8

/-- `create_queue_full_response` (utils.rs lines 101-123): builds a 503
header carrying `grpc-message` and `grpc-status`, disables keep-alive,
writes the header twice (end-of-stream then not), increments the
process-wide queue-drop counter, and returns the constructed HTTP-503
error (it never returns `Ok`). -/
def create_queue_full_response (st : ServerState) :
    ServerState × Except PingoraError Bool :=
  let header := ResponseHeader.build 503
  let header := header.insert_header "grpc-message" "Too many requests in the queue"
  let header := header.insert_header "grpc-status" (toString RESOURCE_EXHAUSTED_CODE)
  let s := st.session.set_keepalive none
  let s := s.write_response_header header true
  let error : PingoraError :=
    { etype := PingoraErrorType.HTTPStatus 503,
      context := some "Too many requests in the queue",
      cause := some "Too many requests in the queue",
      internal := true }
  let s := s.write_response_header header false
  ({ session := s, queue_drop_count := st.queue_drop_count + 1 }, Except.error error)

/-- `create_too_many_requests_response` (utils.rs lines 126-138): 429 with
the three rate-limit headers; keep-alive disabled.
`max_request_per_second` is an `isize`, modelled as `Int`. -/
def create_too_many_requests_response (st : ServerState)
    (max_request_per_second : Int) : ServerState × Except PingoraError Bool :=
  let header := ResponseHeader.build 429
  let header := header.insert_header "X-Rate-Limit-Limit" (toString max_request_per_second)
  let header := header.insert_header "X-Rate-Limit-Remaining" "0"
  let header := header.insert_header "X-Rate-Limit-Reset" "1"
  let s := st.session.set_keepalive none
  let s := s.write_response_header header true
  ({ st with session := s }, Except.ok true)

/-- `create_workers_updated_response` (utils.rs lines 143-152): 200 with
`X-Worker-Count`; keep-alive disabled. `workers` is a `usize`. -/
def create_workers_updated_response (st : ServerState) (workers : Nat) :
    ServerState × Except PingoraError Bool :=
  let header := ResponseHeader.build 200
  let header := header.insert_header "X-Worker-Count" (toString workers)
  let s := st.session.set_keepalive none
  let s := s.write_response_header header true
  ({ st with session := s }, Except.ok true)

/-- `create_response_with_error_message` (utils.rs lines 157-166): 400 with
`X-Error-Message`; keep-alive disabled. -/
def create_response_with_error_message (st : ServerState) (error_msg : String) :
    ServerState × Except PingoraError Bool :=
  let header := ResponseHeader.build 400
  let header := header.insert_header "X-Error-Message" error_msg
  let s := st.session.set_keepalive none
  let s := s.write_response_header header true
  ({ st with session := s }, Except.ok true)

/-- The suffix of response headers a builder appends to the session's
response stream: everything written beyond what the incoming session had. -/
def writtenBy (f : ServerState → ServerState × Except PingoraError Bool)
    (st : ServerState) : List (ResponseHeader × Bool) :=
  ((f st).1.session.written).drop st.session.written.length

-- ==============================================================
-- Health-check client (bin/proving-service/src/utils.rs lines 173-187)
-- ==============================================================

/-- Modelled from the spec: `TxProverServiceError` is defined in
`crate::error`, outside the embedded sources; only the two variants used by
`create_health_check_client` are modelled. The spec's error taxonomy calls
the `InvalidURI` classification `InvalidAddress` (malformed worker address)
and `ConnectionFailed` "worker unreachable within connect timeout". Each
variant carries the offending address (the underlying transport error is
abstracted away). -/
inductive TxProverServiceError where
  | InvalidURI (address : String)
  | ConnectionFailed (address : String)
deriving DecidableEq, Repr

/-- A `tonic::transport::Channel` as configured by
`create_health_check_client`: the endpoint URI plus the two independently
configured timeouts (durations modelled as `Nat`). -/
structure Channel where
  uri : String
  connect_timeout : Nat
  total_timeout : Nat
deriving DecidableEq, Repr

/-- `tonic_health::pb::health_client::HealthClient` over a channel. -/
structure HealthClient where
  channel : Channel
deriving DecidableEq, Repr

/-- Oracle for the two effectful steps of `create_health_check_client`:
whether `Channel::from_shared` accepts a URI string, and whether
`connect()` to that URI succeeds. -/
structure Network where
  uri_ok : String → Bool
  connects : String → Bool

/-- `create_health_check_client` (utils.rs lines 173-187): prefix the
address with `http://`; if `Channel::from_shared` rejects the URI, return
`InvalidURI` without attempting a connection; otherwise configure the
connect timeout and the total timeout and connect, returning
`ConnectionFailed` on failure and the health client on success. The second
component of the result records whether a connection was attempted. -/
def create_health_check_client (net : Network) (address : String)
    (connection_timeout total_timeout : Nat) :
    Except TxProverServiceError HealthClient × Bool :=
  let uri := "http://" ++ address
  if net.uri_ok uri then
    if net.connects uri then
      (Except.ok
        { channel :=
          { uri := uri,
            connect_timeout := connection_timeout,
            total_timeout := total_timeout } }, true)
    else
      (Except.error (TxProverServiceError.ConnectionFailed address), true)
  else
    (Except.error (TxProverServiceError.InvalidURI address), false)

-- ==============================================================
-- Transaction-kernel output stack (crates/miden-lib/src/transaction/mod.rs)
-- ==============================================================

/-- A Miden `Digest`: a word of four field elements. Field elements are
modelled as `Nat` (the round-trip claims involve no field arithmetic, so
no reduction modulo the Miden prime is needed). -/
structure Digest where
  e0 : Nat
  e1 : Nat
  e2 : Nat
  e3 : Nat
deriving DecidableEq, Repr

/-- The elements of a digest in their natural order, as iterated by
`Vec::extend`. -/
def Digest.toList (d : Digest) : List Nat := [d.e0, d.e1, d.e2, d.e3]

/-- A word read off the stack, converted to a `Digest` (`.into()`). -/
def Digest.ofList (l : List Nat) : Digest :=
  { e0 := l.getD 0 0, e1 := l.getD 1 0, e2 := l.getD 2 0, e3 := l.getD 3 0 }

/-- `EMPTY_WORD`: a word of four ZEROs. -/
def EMPTY_WORD : List Nat := [0, 0, 0, 0]

/-- `miden_vm`'s `StackOutputs`: the top 16 stack elements, element 0 being
the top of the stack. Constructed only through `StackOutputs.new`, which
pads to exactly 16 elements. -/
structure StackOutputs where
  stack : List Nat
  len_eq : stack.length = 16

/-- `StackOutputs::new`: errors when more than 16 elements are supplied,
otherwise pads the stack with ZEROs up to 16 elements. -/
def StackOutputs.new (s : List Nat) : Option StackOutputs :=
  if h : 16 < s.length then none
  else some ⟨s ++ List.replicate (16 - s.length) 0, by
    rw [List.length_append, List.length_replicate]; omega⟩

/-- `StackOutputs::get_stack_item(idx)`: the stack element at `idx`, if any. -/
def StackOutputs.get_stack_item (s : StackOutputs) (idx : Nat) : Option Nat :=
  s.stack[idx]?

/-- `StackOutputs::get_stack_word(idx)`: the word occupying stack positions
`idx..idx+4`, reversed into natural order (the stack stores words in
reverse). -/
def StackOutputs.get_stack_word (s : StackOutputs) (idx : Nat) :
    Option (List Nat) := do
  let a ← s.get_stack_item idx
  let b ← s.get_stack_item (idx + 1)
  let c ← s.get_stack_item (idx + 2)
  let d ← s.get_stack_item (idx + 3)
  pure [d, c, b, a]

/-- Modelled from the spec: index constants from the `outputs` submodule
(not among the embedded sources). The documented output-stack layout
`[CNC, FAH, tx_expiration_block_num]` puts the output-notes commitment in
word 0, the final account hash in word 1, and — per the source's own
`expect("element on index 8 missing")` — the expiration block number at
element index 8. -/
def OUTPUT_NOTES_COMMITMENT_WORD_IDX : Nat := 0

/-- Modelled from the spec: see `OUTPUT_NOTES_COMMITMENT_WORD_IDX`. -/
def FINAL_ACCOUNT_HASH_WORD_IDX : Nat := 1

/-- Modelled from the spec: see `OUTPUT_NOTES_COMMITMENT_WORD_IDX`. -/
def EXPIRATION_BLOCK_ELEMENT_IDX : Nat := 8

/-- `TransactionOutputError`, restricted to the variant
`parse_output_stack` produces. -/
inductive TransactionOutputError where
  | OutputStackInvalid (msg : String)
deriving DecidableEq, Repr

/-- `TransactionKernel::build_output_stack` (mod.rs lines 219-232): pushes
the expiration block number, extends with the final account hash and the
output-notes hash, reverses, and builds `StackOutputs` (whose `expect`
never fires: nine elements fit in sixteen, so the `getD` default is
unreachable). -/
def build_output_stack (final_acct_hash : Digest) (output_notes_hash : Digest)
    (expiration_block_num : Nat) : StackOutputs :=
  let outputs :=
    ([expiration_block_num] ++ final_acct_hash.toList ++
      output_notes_hash.toList).reverse
  (StackOutputs.new outputs).getD ⟨List.replicate 16 0, by simp⟩

/-- `TransactionKernel::parse_output_stack` (mod.rs lines 252-284): reads
the output-notes commitment (word 0), the final account hash (word 1) and
the expiration block number (element 8); fails if the expiration does not
fit in a `u32` or if the fourth word is not all ZEROs. The `expect`s on
`get_stack_word`/`get_stack_item` never fire because a `StackOutputs`
always holds 16 elements; they are modelled by `getD`. -/
def parse_output_stack (stack : StackOutputs) :
    Except TransactionOutputError (Digest × Digest × Nat) :=
  let output_notes_hash := Digest.ofList
    ((stack.get_stack_word (OUTPUT_NOTES_COMMITMENT_WORD_IDX * 4)).getD EMPTY_WORD)
  let final_account_hash := Digest.ofList
    ((stack.get_stack_word (FINAL_ACCOUNT_HASH_WORD_IDX * 4)).getD EMPTY_WORD)
  let expiration_block_num :=
    (stack.get_stack_item EXPIRATION_BLOCK_ELEMENT_IDX).getD 0
  if expiration_block_num < 2 ^ 32 then
    if (stack.get_stack_word 12).getD EMPTY_WORD ≠ EMPTY_WORD then
      Except.error (TransactionOutputError.OutputStackInvalid
        "Fourth word on output stack should consist only of ZEROs")
    else
      Except.ok (final_account_hash, output_notes_hash, expiration_block_num)
  else
    Except.error (TransactionOutputError.OutputStackInvalid
      "Expiration block number should be smaller than u32::MAX")

-- ==============================================================
-- Block construction and validation (objects/src/block/mod.rs)
-- ==============================================================

/-- A note identifier (`NoteId`), modelled opaquely. -/
abbrev NoteId := Nat

/-- An `OutputNote`, restricted to the one attribute `Block::validate`
inspects: its ID. -/
structure OutputNote where
  id : NoteId
deriving DecidableEq, Repr

/-- `pub type NoteBatch = Vec<OutputNote>`. -/
abbrev NoteBatch := List OutputNote

/-- A `BlockHeader`, modelled opaquely (validation never inspects it). -/
abbrev BlockHeader := Nat

/-- A `BlockAccountUpdate`, modelled opaquely (validation never inspects it). -/
abbrev BlockAccountUpdate := Nat

/-- A `Nullifier`, modelled opaquely (validation never inspects it). -/
abbrev Nullifier := Nat

/-- `MAX_BATCHES_PER_BLOCK` (imported by block/mod.rs from the crate root). -/
def MAX_BATCHES_PER_BLOCK : Nat := 64

/-- `MAX_NOTES_PER_BATCH` (imported by block/mod.rs from the crate root). -/
def MAX_NOTES_PER_BATCH : Nat := 64

/-- `BlockError`, restricted to the variants `Block::validate` produces. -/
inductive BlockError where
  | TooManyTransactionBatches (count : Nat)
  | TooManyNotesInBatch (count : Nat)
  | DuplicateNoteFound (id : NoteId)
deriving DecidableEq, Repr

/-- Modelled from the spec: the `Display` rendering of `BlockError`
(its `thiserror` messages live in `errors.rs`, outside the embedded
sources); only used to fill `DeserializationError::InvalidValue`. -/
def BlockError.message : BlockError → String
  | BlockError.TooManyTransactionBatches n => "too many transaction batches: " ++ toString n
  | BlockError.TooManyNotesInBatch n => "too many notes in batch: " ++ toString n
  | BlockError.DuplicateNoteFound id => "duplicate note found: " ++ toString id

/-- `DeserializationError`, restricted to the variant `Block::read_from`
produces. -/
inductive DeserializationError where
  | InvalidValue (msg : String)
deriving DecidableEq, Repr

/-- A `Block` (block/mod.rs lines 40-54). -/
structure Block where
  header : BlockHeader
  updated_accounts : List BlockAccountUpdate
  created_notes : List NoteBatch
  created_nullifiers : List Nullifier
deriving DecidableEq, Repr

/-- The first batch in the list exceeding `MAX_NOTES_PER_BATCH`, if any:
the first `for` loop of `Block::validate`. -/
def firstOversizedBatch : List NoteBatch → Option Nat
  | [] => none
  | batch :: rest =>
    if MAX_NOTES_PER_BATCH < batch.length then some batch.length
    else firstOversizedBatch rest

/-- Inner loop of `Block::validate`'s duplicate scan: walk one batch with
the set of note IDs already seen, returning either the extended seen-set
or the first duplicate ID (`BTreeSet::insert` returning `false`). -/
def scanBatchForDup (seen : List NoteId) : List OutputNote → Sum (List NoteId) NoteId
  | [] => Sum.inl seen
  | note :: rest =>
    if note.id ∈ seen then Sum.inr note.id
    else scanBatchForDup (note.id :: seen) rest

/-- Outer loop of `Block::validate`'s duplicate scan over all batches. -/
def scanBatchesForDup (seen : List NoteId) : List NoteBatch → Option NoteId
  | [] => none
  | batch :: rest =>
    match scanBatchForDup seen batch with
    | Sum.inl seen2 => scanBatchesForDup seen2 rest
    | Sum.inr dup => some dup

/-- `Block::validate` (block/mod.rs lines 151-173): batch count bound,
per-batch note bound, then duplicate-note scan. -/
def Block.validate (b : Block) : Except BlockError Unit :=
  if MAX_BATCHES_PER_BLOCK < b.created_notes.length then
    Except.error (BlockError.TooManyTransactionBatches b.created_notes.length)
  else
    match firstOversizedBatch b.created_notes with
    | some n => Except.error (BlockError.TooManyNotesInBatch n)
    | none =>
      match scanBatchesForDup [] b.created_notes with
      | some dup => Except.error (BlockError.DuplicateNoteFound dup)
      | none => Except.ok ()

/-- `Block::new` (block/mod.rs lines 60-76): assemble the components and
validate. -/
def Block.new (header : BlockHeader) (updated_accounts : List BlockAccountUpdate)
    (created_notes : List NoteBatch) (created_nullifiers : List Nullifier) :
    Except BlockError Block :=
  let block : Block :=
    { header := header,
      updated_accounts := updated_accounts,
      created_notes := created_notes,
      created_nullifiers := created_nullifiers }
  match block.validate with
  | Except.error e => Except.error e
  | Except.ok _ => Except.ok block

/-- `Block::read_from` (block/mod.rs lines 186-199): the component
`read_from` impls live outside the embedded sources, so the components are
taken as already decoded; the block is assembled and validated, validation
errors being mapped to `DeserializationError::InvalidValue`. -/
def Block.read_from (header : BlockHeader)
    (updated_accounts : List BlockAccountUpdate)
    (created_notes : List NoteBatch) (created_nullifiers : List Nullifier) :
    Except DeserializationError Block :=
  let block : Block :=
    { header := header,
      updated_accounts := updated_accounts,
      created_notes := created_notes,
      created_nullifiers := created_nullifiers }
  match block.validate with
  | Except.error e => Except.error (DeserializationError.InvalidValue e.message)
  | Except.ok _ => Except.ok block

/-- The validation invariant of C9, as a predicate on the note batches: at
most `MAX_BATCHES_PER_BLOCK` batches, each of at most
`MAX_NOTES_PER_BATCH` notes, with no note ID repeated across batches. -/
def notesWellFormed (created_notes : List NoteBatch) : Prop :=
  created_notes.length ≤ MAX_BATCHES_PER_BLOCK ∧
  (∀ batch ∈ created_notes, batch.length ≤ MAX_NOTES_PER_BATCH) ∧
  (created_notes.flatten.map OutputNote.id).Nodup

instance (cn : List NoteBatch) : Decidable (notesWellFormed cn) := by
  unfold notesWellFormed; infer_instance

-- ==============================================================
-- Concrete fixtures used by witnesses and counterexamples
-- ==============================================================

/-- A session with keep-alive enabled and nothing written yet. -/
def session0 : Session := { keepalive := some 5, written := [] }

/-- A server state with a zeroed queue-drop counter. -/
def state0 : ServerState := { session := session0, queue_drop_count := 0 }

/-- A network in which no URI parses. -/
def netBadURI : Network := { uri_ok := fun _ => false, connects := fun _ => false }

/-- A network in which URIs parse but no connection succeeds. -/
def netNoConn : Network := { uri_ok := fun _ => true, connects := fun _ => false }

/-- A network in which every connection succeeds. -/
def netGood : Network := { uri_ok := fun _ => true, connects := fun _ => true }

-- ==============================================================
-- Theorems for the response builders
-- ==============================================================

/-- C1: every queue-full admission outcome handled by
`create_queue_full_response` writes only headers with HTTP status 503,
`grpc-status: 8` and `grpc-message: "Too many requests in the queue"`,
disables keep-alive on the session, and increments the process-wide
queue-drop counter exactly once. -/
theorem create_queue_full_response_spec (st : ServerState) :
    (create_queue_full_response st).1.session.keepalive = none ∧
    (create_queue_full_response st).1.queue_drop_count = st.queue_drop_count + 1 ∧
    writtenBy create_queue_full_response st ≠ [] ∧
    ∀ p ∈ writtenBy create_queue_full_response st,
      p.1.status = 503 ∧
      p.1.get "grpc-status" = some "8" ∧
      p.1.get "grpc-message" = some "Too many requests in the queue" := by
  refine ⟨rfl, rfl, ?_, ?_⟩
  · simp [writtenBy, create_queue_full_response, Session.write_response_header,
      Session.set_keepalive]
  · intro p hp
    simp [writtenBy, create_queue_full_response, Session.write_response_header,
      Session.set_keepalive] at hp
    rcases hp with h | h <;> subst h <;> refine ⟨rfl, ?_, ?_⟩ <;> decide

/-- C3: every rate-limited admission outcome handled by
`create_too_many_requests_response` with configured limit `R` writes a
response with HTTP status 429, `X-Rate-Limit-Limit: R`,
`X-Rate-Limit-Remaining: 0` and `X-Rate-Limit-Reset: 1`, and disables
keep-alive on the session. -/
theorem create_too_many_requests_response_spec (st : ServerState) (r : Int) :
    (create_too_many_requests_response st r).1.session.keepalive = none ∧
    ∃ h, writtenBy (fun s => create_too_many_requests_response s r) st = [(h, true)] ∧
      h.status = 429 ∧
      h.get "X-Rate-Limit-Limit" = some (toString r) ∧
      h.get "X-Rate-Limit-Remaining" = some "0" ∧
      h.get "X-Rate-Limit-Reset" = some "1" := by
  refine ⟨rfl, (((ResponseHeader.build 429).insert_header "X-Rate-Limit-Limit"
    (toString r)).insert_header "X-Rate-Limit-Remaining" "0").insert_header
    "X-Rate-Limit-Reset" "1", ?_, rfl, rfl, rfl, rfl⟩
  simp [writtenBy, create_too_many_requests_response, Session.write_response_header,
    Session.set_keepalive, List.drop_left]

/-- C5: every successful worker-membership change answered through
`create_workers_updated_response` with resulting worker count `n` writes a
response with HTTP status 200 and `X-Worker-Count: n`, and disables
keep-alive on the session. -/
theorem create_workers_updated_response_spec (st : ServerState) (n : Nat) :
    (create_workers_updated_response st n).1.session.keepalive = none ∧
    ∃ h, writtenBy (fun s => create_workers_updated_response s n) st = [(h, true)] ∧
      h.status = 200 ∧
      h.get "X-Worker-Count" = some (toString n) := by
  refine ⟨rfl, (ResponseHeader.build 200).insert_header "X-Worker-Count"
    (toString n), ?_, rfl, rfl⟩
  simp [writtenBy, create_workers_updated_response, Session.write_response_header,
    Session.set_keepalive, List.drop_left]

/-- C6: every error message `m` answered through
`create_response_with_error_message` yields a response with HTTP status 400
and `X-Error-Message: m`, and disables keep-alive on the session. -/
theorem create_response_with_error_message_spec (st : ServerState) (m : String) :
    (create_response_with_error_message st m).1.session.keepalive = none ∧
    ∃ h, writtenBy (fun s => create_response_with_error_message s m) st = [(h, true)] ∧
      h.status = 400 ∧
      h.get "X-Error-Message" = some m := by
  refine ⟨rfl, (ResponseHeader.build 400).insert_header "X-Error-Message" m,
    ?_, rfl, rfl⟩
  simp [writtenBy, create_response_with_error_message, Session.write_response_header,
    Session.set_keepalive, List.drop_left]

/-- C10: `create_queue_full_response` never returns `Ok`: on every
execution it returns an `Err` carrying an HTTP-503 status error, after
writing the 503 response and incrementing the drop counter — unlike the
other three response builders, which return `Ok(true)`. -/
theorem create_queue_full_response_returns_err (st : ServerState) (r : Int)
    (n : Nat) (m : String) :
    (∃ e, (create_queue_full_response st).2 = Except.error e ∧
      e.etype = PingoraErrorType.HTTPStatus 503) ∧
    (∀ b, (create_queue_full_response st).2 ≠ Except.ok b) ∧
    writtenBy create_queue_full_response st ≠ [] ∧
    (create_queue_full_response st).1.queue_drop_count = st.queue_drop_count + 1 ∧
    (create_too_many_requests_response st r).2 = Except.ok true ∧
    (create_workers_updated_response st n).2 = Except.ok true ∧
    (create_response_with_error_message st m).2 = Except.ok true := by
  refine ⟨⟨_, rfl, rfl⟩, ?_, ?_, rfl, rfl, rfl, rfl⟩
  · intro b hb
    simp [create_queue_full_response] at hb
  · simp [writtenBy, create_queue_full_response, Session.write_response_header,
      Session.set_keepalive]

/-- C2 counterexample: the claim "each of the four response-building
operations mutates no state outside the session it is given" fails at a
concrete state: `create_queue_full_response` increments the process-wide
queue-drop counter, which is not part of the session. -/
theorem response_builders_not_all_session_pure :
    ¬ ((create_queue_full_response state0).1.queue_drop_count
        = state0.queue_drop_count) := by
  decide

/-- C2 amended: each of the four response builders writes response data
determined only by its arguments (the appended response-header suffix and
the returned value are independent of the incoming state); the three
non-queue-full builders mutate no state outside the session, while
`create_queue_full_response` additionally increments the process-wide
queue-drop counter, by exactly one. -/
theorem response_builders_pure_mapping (st st2 : ServerState) (r : Int)
    (n : Nat) (m : String) :
    writtenBy create_queue_full_response st = writtenBy create_queue_full_response st2 ∧
    (create_queue_full_response st).2 = (create_queue_full_response st2).2 ∧
    writtenBy (fun s => create_too_many_requests_response s r) st
      = writtenBy (fun s => create_too_many_requests_response s r) st2 ∧
    (create_too_many_requests_response st r).2
      = (create_too_many_requests_response st2 r).2 ∧
    writtenBy (fun s => create_workers_updated_response s n) st
      = writtenBy (fun s => create_workers_updated_response s n) st2 ∧
    (create_workers_updated_response st n).2
      = (create_workers_updated_response st2 n).2 ∧
    writtenBy (fun s => create_response_with_error_message s m) st
      = writtenBy (fun s => create_response_with_error_message s m) st2 ∧
    (create_response_with_error_message st m).2
      = (create_response_with_error_message st2 m).2 ∧
    (create_too_many_requests_response st r).1.queue_drop_count
      = st.queue_drop_count ∧
    (create_workers_updated_response st n).1.queue_drop_count
      = st.queue_drop_count ∧
    (create_response_with_error_message st m).1.queue_drop_count
      = st.queue_drop_count ∧
    (create_queue_full_response st).1.queue_drop_count
      = st.queue_drop_count + 1 := by
  refine ⟨?_, rfl, ?_, rfl, ?_, rfl, ?_, rfl, rfl, rfl, rfl, rfl⟩ <;>
    simp [writtenBy, create_queue_full_response, create_too_many_requests_response,
      create_workers_updated_response, create_response_with_error_message,
      Session.write_response_header, Session.set_keepalive, List.drop_left]

-- ==============================================================
-- Theorems for the health-check client
-- ==============================================================

/-- C4: `create_health_check_client` classifies a malformed address as
`InvalidURI` (the spec's `InvalidAddress`) synchronously, without
attempting a connection; a well-formed address whose connection fails as
`ConnectionFailed`; and returns a health client only when the connection
succeeds. -/
theorem create_health_check_client_classifies (net : Network) (address : String)
    (connection_timeout total_timeout : Nat) :
    (net.uri_ok ("http://" ++ address) = false →
      create_health_check_client net address connection_timeout total_timeout
        = (Except.error (TxProverServiceError.InvalidURI address), false)) ∧
    (net.uri_ok ("http://" ++ address) = true →
      net.connects ("http://" ++ address) = false →
      (create_health_check_client net address connection_timeout total_timeout).1
        = Except.error (TxProverServiceError.ConnectionFailed address)) ∧
    (∀ c, (create_health_check_client net address connection_timeout total_timeout).1
        = Except.ok c →
      net.uri_ok ("http://" ++ address) = true ∧
      net.connects ("http://" ++ address) = true) := by
  refine ⟨?_, ?_, ?_⟩
  · intro h
    simp [create_health_check_client, h]
  · intro h1 h2
    simp [create_health_check_client, h1, h2]
  · intro c hc
    by_cases h1 : net.uri_ok ("http://" ++ address) <;>
      by_cases h2 : net.connects ("http://" ++ address) <;>
      simp [create_health_check_client, h1, h2] at hc ⊢

/-- Witness for C4: the three classifications at concrete networks. -/
theorem create_health_check_client_classifies_witness :
    create_health_check_client netBadURI "worker" 1 2
      = (Except.error (TxProverServiceError.InvalidURI "worker"), false) ∧
    (create_health_check_client netNoConn "worker" 1 2).1
      = Except.error (TxProverServiceError.ConnectionFailed "worker") ∧
    (netGood.uri_ok "http://worker" = true ∧ netGood.connects "http://worker" = true) :=
  ⟨(create_health_check_client_classifies netBadURI "worker" 1 2).1 rfl,
   (create_health_check_client_classifies netNoConn "worker" 1 2).2.1 rfl rfl,
   (create_health_check_client_classifies netGood "worker" 1 2).2.2
     { channel := { uri := "http://worker", connect_timeout := 1, total_timeout := 2 } }
     rfl⟩

/-- C7: every health client returned by `create_health_check_client`
carries the supplied connect timeout and the supplied total timeout,
each set independently from its own configuration value. -/
theorem create_health_check_client_timeouts (net : Network) (address : String)
    (connection_timeout total_timeout : Nat) (c : HealthClient)
    (h : (create_health_check_client net address connection_timeout total_timeout).1
      = Except.ok c) :
    c.channel.connect_timeout = connection_timeout ∧
    c.channel.total_timeout = total_timeout := by
  by_cases h1 : net.uri_ok ("http://" ++ address) <;>
    by_cases h2 : net.connects ("http://" ++ address) <;>
    simp [create_health_check_client, h1, h2] at h
  simp [← h]

/-- Witness for C7: a successful connection carries timeouts 3 and 7. -/
theorem create_health_check_client_timeouts_witness :
    ({ channel := { uri := "http://worker", connect_timeout := 3, total_timeout := 7 } }
        : HealthClient).channel.connect_timeout = 3 ∧
    ({ channel := { uri := "http://worker", connect_timeout := 3, total_timeout := 7 } }
        : HealthClient).channel.total_timeout = 7 :=
  create_health_check_client_timeouts netGood "worker" 3 7
    { channel := { uri := "http://worker", connect_timeout := 3, total_timeout := 7 } }
    rfl

-- ==============================================================
-- Theorems for the transaction-kernel output stack
-- ==============================================================

/-- C8: round trip of the transaction-kernel output stack — parsing the
stack built from a final account hash, an output-notes hash and an
expiration block number representable as a `u32` returns exactly those
three values. -/
theorem parse_build_output_stack_roundtrip (final_acct_hash : Digest)
    (output_notes_hash : Digest) (expiration_block_num : Nat)
    (h : expiration_block_num < 2 ^ 32) :
    parse_output_stack
        (build_output_stack final_acct_hash output_notes_hash expiration_block_num)
      = Except.ok (final_acct_hash, output_notes_hash, expiration_block_num) := by
  obtain ⟨f0, f1, f2, f3⟩ := final_acct_hash
  obtain ⟨n0, n1, n2, n3⟩ := output_notes_hash
  simp [build_output_stack, parse_output_stack, StackOutputs.new,
    StackOutputs.get_stack_word, StackOutputs.get_stack_item, Digest.toList,
    Digest.ofList, EMPTY_WORD, OUTPUT_NOTES_COMMITMENT_WORD_IDX,
    FINAL_ACCOUNT_HASH_WORD_IDX, EXPIRATION_BLOCK_ELEMENT_IDX, h,
    List.replicate_succ]
  omega

/-- Witness for C8: the round trip at concrete digests and expiration 9. -/
theorem parse_build_output_stack_roundtrip_witness :
    parse_output_stack (build_output_stack ⟨1, 2, 3, 4⟩ ⟨5, 6, 7, 8⟩ 9)
      = Except.ok (⟨1, 2, 3, 4⟩, ⟨5, 6, 7, 8⟩, 9) :=
  parse_build_output_stack_roundtrip ⟨1, 2, 3, 4⟩ ⟨5, 6, 7, 8⟩ 9 (by decide)

-- ==============================================================
-- Theorems for Block validation
-- ==============================================================

/-- The per-batch bound check passes exactly when every batch is within
`MAX_NOTES_PER_BATCH`. -/
theorem firstOversizedBatch_none_iff (batches : List NoteBatch) :
    firstOversizedBatch batches = none ↔
      ∀ batch ∈ batches, batch.length ≤ MAX_NOTES_PER_BATCH := by
  induction batches with
  | nil => simp [firstOversizedBatch]
  | cons batch rest ih =>
    by_cases h : MAX_NOTES_PER_BATCH < batch.length
    · simp only [firstOversizedBatch, if_pos h, reduceCtorEq, false_iff]
      intro hall
      exact absurd (hall batch (List.mem_cons_self _ _)) (by omega)
    · simp only [firstOversizedBatch, if_neg h, ih]
      constructor
      · intro hall batch2 hmem
        rcases List.mem_cons.1 hmem with rfl | hmem2
        · omega
        · exact hall batch2 hmem2
      · intro hall batch2 hmem
        exact hall batch2 (List.mem_cons_of_mem _ hmem)

/-- A successful single-batch duplicate scan returns the incoming seen-set
extended (in reverse) with the batch's note IDs. -/
theorem scanBatchForDup_inl {batch : List OutputNote} {seen acc : List NoteId}
    (h : scanBatchForDup seen batch = Sum.inl acc) :
    acc = (batch.map OutputNote.id).reverse ++ seen := by
  induction batch generalizing seen with
  | nil =>
    simp [scanBatchForDup] at h
    simp [h]
  | cons note rest ih =>
    by_cases hmem : note.id ∈ seen
    · simp [scanBatchForDup, hmem] at h
    · simp only [scanBatchForDup, hmem, if_false] at h
      rw [ih h]
      simp

/-- The single-batch duplicate scan succeeds exactly when the batch's note
IDs are distinct and disjoint from the seen-set. -/
theorem scanBatchForDup_inl_iff (batch : List OutputNote) (seen : List NoteId) :
    (∃ acc, scanBatchForDup seen batch = Sum.inl acc) ↔
      (batch.map OutputNote.id).Nodup ∧
        ∀ x ∈ batch.map OutputNote.id, x ∉ seen := by
  induction batch generalizing seen with
  | nil => simp [scanBatchForDup]
  | cons note rest ih =>
    by_cases hmem : note.id ∈ seen
    · simp only [scanBatchForDup, hmem, if_true]
      constructor
      · rintro ⟨acc, hacc⟩
        cases hacc
      · rintro ⟨-, hdis⟩
        exact absurd hmem (hdis note.id (by simp))
    · simp only [scanBatchForDup, hmem, if_false]
      rw [ih]
      simp only [List.map_cons, List.nodup_cons]
      constructor
      · rintro ⟨hnd, hdis⟩
        refine ⟨⟨?_, hnd⟩, ?_⟩
        · intro hin
          exact hdis note.id hin (List.mem_cons_self _ _)
        · intro x hx
          rcases List.mem_cons.1 hx with rfl | hx2
          · exact hmem
          · intro hseen
            exact hdis x hx2 (List.mem_cons_of_mem _ hseen)
      · rintro ⟨⟨hnotin, hnd⟩, hall⟩
        refine ⟨hnd, ?_⟩
        intro x hx hxin
        rcases List.mem_cons.1 hxin with rfl | hseen
        · exact hnotin hx
        · exact hall x (List.mem_cons_of_mem _ hx) hseen

/-- The full duplicate scan succeeds exactly when all note IDs across all
batches are distinct and disjoint from the seen-set. -/
theorem scanBatchesForDup_none_iff (batches : List NoteBatch) (seen : List NoteId) :
    scanBatchesForDup seen batches = none ↔
      (batches.flatten.map OutputNote.id).Nodup ∧
        ∀ x ∈ batches.flatten.map OutputNote.id, x ∉ seen := by
  induction batches generalizing seen with
  | nil => simp [scanBatchesForDup]
  | cons batch rest ih =>
    rw [scanBatchesForDup]
    cases hscan : scanBatchForDup seen batch with
    | inr dup =>
      simp only [reduceCtorEq, false_iff]
      intro hwf
      rw [List.flatten_cons, List.map_append, List.nodup_append] at hwf
      have hex : ∃ acc, scanBatchForDup seen batch = Sum.inl acc :=
        (scanBatchForDup_inl_iff batch seen).2
          ⟨hwf.1.1, fun x hx => hwf.2 x (List.mem_append_left _ hx)⟩
      rcases hex with ⟨acc, hacc⟩
      rw [hscan] at hacc
      cases hacc
    | inl acc =>
      have hext := scanBatchForDup_inl hscan
      have hbatch := (scanBatchForDup_inl_iff batch seen).1 ⟨acc, hscan⟩
      subst hext
      rw [ih, List.flatten_cons, List.map_append, List.nodup_append]
      constructor
      · rintro ⟨hndB, hall⟩
        have hAB : ∀ x ∈ rest.flatten.map OutputNote.id,
            x ∉ batch.map OutputNote.id := fun x hx hxa =>
          hall x hx (List.mem_append_left _ (List.mem_reverse.2 hxa))
        have hBseen : ∀ x ∈ rest.flatten.map OutputNote.id, x ∉ seen :=
          fun x hx hxs => hall x hx (List.mem_append_right _ hxs)
        refine ⟨⟨hbatch.1, hndB, ?_⟩, ?_⟩
        · intro a ha hb
          exact hAB a hb ha
        · intro x hx
          rcases List.mem_append.1 hx with hxa | hxb
          · exact hbatch.2 x hxa
          · exact hBseen x hxb
      · rintro ⟨⟨hndA, hndB, hdisj⟩, hall⟩
        refine ⟨hndB, ?_⟩
        intro x hx hxin
        rcases List.mem_append.1 hxin with hxa | hxs
        · exact hdisj (List.mem_reverse.1 hxa) hx
        · exact hall x (List.mem_append_right _ hx) hxs

/-- `Block::validate` succeeds exactly when the note batches satisfy the
structural invariant. -/
theorem validate_ok_iff (b : Block) :
    b.validate = Except.ok () ↔ notesWellFormed b.created_notes := by
  unfold Block.validate notesWellFormed
  by_cases hlen : MAX_BATCHES_PER_BLOCK < b.created_notes.length
  · simp only [hlen, if_true, reduceCtorEq, false_iff]
    intro hwf
    exact absurd hwf.1 (by omega)
  · simp only [hlen, if_false]
    cases hov : firstOversizedBatch b.created_notes with
    | some n =>
      simp only [reduceCtorEq, false_iff]
      intro hwf
      have hnone := (firstOversizedBatch_none_iff b.created_notes).2 hwf.2.1
      rw [hnone] at hov
      cases hov
    | none =>
      cases hscan : scanBatchesForDup [] b.created_notes with
      | some dup =>
        simp only [reduceCtorEq, false_iff]
        intro hwf
        have hnone := (scanBatchesForDup_none_iff b.created_notes []).2
          ⟨hwf.2.2, by simp⟩
        rw [hnone] at hscan
        cases hscan
      | none =>
        simp only [true_iff]
        exact ⟨by omega, (firstOversizedBatch_none_iff b.created_notes).1 hov,
          ((scanBatchesForDup_none_iff b.created_notes []).1 hscan).1⟩

/-- C9: every `Block` obtained through `Block::new` or through
deserialization (`read_from`) satisfies the validation invariant — batch
count at most `MAX_BATCHES_PER_BLOCK`, every batch of at most
`MAX_NOTES_PER_BATCH` notes, and no note ID repeated across batches — and
both constructors return an error instead of a `Block` whenever the
invariant is violated. -/
theorem block_constructors_validate (header : BlockHeader)
    (updated_accounts : List BlockAccountUpdate) (created_notes : List NoteBatch)
    (created_nullifiers : List Nullifier) :
    (∀ b, Block.new header updated_accounts created_notes created_nullifiers
        = Except.ok b →
      b.created_notes.length ≤ MAX_BATCHES_PER_BLOCK ∧
      (∀ batch ∈ b.created_notes, batch.length ≤ MAX_NOTES_PER_BATCH) ∧
      (b.created_notes.flatten.map OutputNote.id).Nodup) ∧
    (∀ b, Block.read_from header updated_accounts created_notes created_nullifiers
        = Except.ok b →
      b.created_notes.length ≤ MAX_BATCHES_PER_BLOCK ∧
      (∀ batch ∈ b.created_notes, batch.length ≤ MAX_NOTES_PER_BATCH) ∧
      (b.created_notes.flatten.map OutputNote.id).Nodup) ∧
    (¬ notesWellFormed created_notes →
      (∃ e, Block.new header updated_accounts created_notes created_nullifiers
        = Except.error e) ∧
      (∃ e, Block.read_from header updated_accounts created_notes created_nullifiers
        = Except.error e)) := by
  have hval := validate_ok_iff
    { header := header, updated_accounts := updated_accounts,
      created_notes := created_notes, created_nullifiers := created_nullifiers }
  refine ⟨?_, ?_, ?_⟩
  · intro b hb
    cases hv : Block.validate
        { header := header, updated_accounts := updated_accounts,
          created_notes := created_notes, created_nullifiers := created_nullifiers } with
    | error e =>
      simp only [Block.new, hv, reduceCtorEq] at hb
    | ok u =>
      cases u
      simp only [Block.new, hv, Except.ok.injEq] at hb
      subst hb
      exact hval.1 hv
  · intro b hb
    cases hv : Block.validate
        { header := header, updated_accounts := updated_accounts,
          created_notes := created_notes, created_nullifiers := created_nullifiers } with
    | error e =>
      simp only [Block.read_from, hv, reduceCtorEq] at hb
    | ok u =>
      cases u
      simp only [Block.read_from, hv, Except.ok.injEq] at hb
      subst hb
      exact hval.1 hv
  · intro hwf
    cases hv : Block.validate
        { header := header, updated_accounts := updated_accounts,
          created_notes := created_notes, created_nullifiers := created_nullifiers } with
    | error e =>
      exact ⟨⟨e, by simp only [Block.new, hv]⟩,
        ⟨DeserializationError.InvalidValue e.message,
          by simp only [Block.read_from, hv]⟩⟩
    | ok u =>
      cases u
      exact absurd (hval.1 hv) hwf

/-- Witness for C9: a valid two-batch block satisfies the invariant, and a
block with a duplicated note ID is rejected by both constructors. -/
theorem block_constructors_validate_witness :
    ((Block.mk 0 [] [[⟨1⟩], [⟨2⟩]] []).created_notes.length ≤ MAX_BATCHES_PER_BLOCK ∧
      (∀ batch ∈ (Block.mk 0 [] [[⟨1⟩], [⟨2⟩]] []).created_notes,
        batch.length ≤ MAX_NOTES_PER_BATCH) ∧
      ((Block.mk 0 [] [[⟨1⟩], [⟨2⟩]] []).created_notes.flatten.map
        OutputNote.id).Nodup) ∧
    ((∃ e, Block.new 0 [] [[⟨1⟩, ⟨1⟩]] [] = Except.error e) ∧
      (∃ e, Block.read_from 0 [] [[⟨1⟩, ⟨1⟩]] [] = Except.error e)) :=
  ⟨(block_constructors_validate 0 [] [[⟨1⟩], [⟨2⟩]] []).1
      (Block.mk 0 [] [[⟨1⟩], [⟨2⟩]] []) (by rfl),
   (block_constructors_validate 0 [] [[⟨1⟩, ⟨1⟩]] []).2.2 (by decide)⟩
